import Mathlib

/-!
# Checkout initiator (static/booking/js/script.js)

A shallow embedding of the page script that opens the hosted payment dialog and
relays its outcome to the verification endpoint.

The script is event driven: it consists of four callbacks (the DOMContentLoaded
listener, the click listener, the success callback given to the dialog, and the
"payment.failed" listener) plus the promise chain hanging off the verification
request.  Each callback is embedded as a function from the page state and the
callback argument to a run: the list of observable effects it performs, in
order, together with its completion (normal, or an exception that escapes it).
-/

namespace SpotifyHub

/-! ## JavaScript values -/

/-- The data values of the embedding: undefined, null, booleans, safe integers
(magnitude below 2^53, each an exact number whose string conversion is its
plain decimal rendering), strings and plain objects (prototype
Object.prototype; an association list of own data properties, first binding
wins; every name, __proto__ included, is an ordinary own data property, as
JSON.parse creates it).  Functions, symbols, arrays, accessor properties,
objects with another prototype and other numbers do not occur in the
embedding, so no own property of an object is callable. -/
inductive JSVal where
  | undefined : JSVal
  | null : JSVal
  | bool (b : Bool) : JSVal
  | num (n : Int) (safe : n.natAbs < 9007199254740992) : JSVal
  | str (s : String) : JSVal
  | obj (fields : List (String × JSVal)) : JSVal

/-- The exceptions that the script can raise or observe. -/
inductive JSError where
  /-- Reading a property of undefined or null (tagged with the property name),
  or converting an object that has no usable toString or valueOf. -/
  | typeError (what : String) : JSError
  /-- Resolving an identifier that is not declared. -/
  | referenceError (ident : String) : JSError
  /-- Rejection reason of the request itself (transport failure). -/
  | networkError (detail : String) : JSError
  /-- Rejection reason of reading the response body as JSON. -/
  | parseError (detail : String) : JSError
  deriving DecidableEq

/-- The typeof operator on a value. -/
def JSVal.typeof : JSVal → String
  | .undefined => "undefined"
  | .null => "object"
  | .bool _ => "boolean"
  | .num _ _ => "number"
  | .str _ => "string"
  | .obj _ => "object"

/-- The typeof operator applied to a global identifier: an identifier that is
not declared yields "undefined" instead of raising. -/
def typeofGlobal : Option JSVal → String
  | none => "undefined"
  | some v => v.typeof

/-- Reading a global identifier: an undeclared one raises a ReferenceError. -/
def readGlobal (ident : String) : Option JSVal → Except JSError JSVal
  | none => .error (.referenceError ident)
  | some v => .ok v

/-- Property read v.k: raises a TypeError on undefined and null, looks the own
property up on an object (undefined when missing), and is undefined on the
other primitives for the property names this script reads. -/
def JSVal.getProp (v : JSVal) (k : String) : Except JSError JSVal :=
  match v with
  | .undefined => .error (.typeError k)
  | .null => .error (.typeError k)
  | .obj fields => .ok ((fields.lookup k).getD .undefined)
  | _ => .ok .undefined

/-- Whether the value is undefined or null. -/
def JSVal.isNullish : JSVal → Bool
  | .undefined => true
  | .null => true
  | _ => false

/-- Whether the value is an object with an own property named toString. -/
def JSVal.hasOwnToString : JSVal → Bool
  | .obj fields => (fields.lookup "toString").isSome
  | _ => false

/-- The conversion to a string, as applied by template literals, by string
concatenation, by the URLSearchParams record constructor and by the location
setter.  An object is converted through its toString and valueOf methods: the
inherited toString yields "[object Object]", the inherited valueOf yields the
object itself, and an own toString shadows the inherited one with a value that
is not callable, which leaves no method that yields a primitive, so the
conversion raises a TypeError. -/
def JSVal.toStr : JSVal → Except JSError String
  | .undefined => .ok "undefined"
  | .null => .ok "null"
  | .bool true => .ok "true"
  | .bool false => .ok "false"
  | .num n _ => .ok (toString n)
  | .str s => .ok s
  | .obj fields =>
    match fields.lookup "toString" with
    | some _ => .error (.typeError "Cannot convert object to primitive value")
    | none => .ok "[object Object]"

/-- Strict equality of a value with a string literal. -/
def JSVal.strictEqStr (v : JSVal) (lit : String) : Bool :=
  match v with
  | .str s => s == lit
  | _ => false

/-! ## Page state and observable effects -/

/-- What the script finds in its execution context. -/
structure Page where
  /-- Whether document.getElementById("rzp-button") finds an element. -/
  payBtn : Bool
  /-- The global razorpayData: none when the identifier is not declared. -/
  razorpayData : Option JSVal
  /-- Whether the dialog SDK has defined the global Razorpay constructor. -/
  razorpaySdk : Bool

/-- The prefill object of the dialog configuration. -/
structure Prefill where
  name : String
  email : String
  contact : String
  deriving DecidableEq

/-- The theme object of the dialog configuration. -/
structure Theme where
  color : String
  deriving DecidableEq

/-- The configuration object handed to the dialog constructor.  Its handler
property is always the function literal embedded as handler below; that
function refers to its own parameter and to globals only, so it is the same
callback at every activation and is not stored in the record. -/
structure Options where
  key : JSVal
  amount : JSVal
  currency : JSVal
  name : String
  description : String
  order_id : JSVal
  prefill : Prefill
  theme : Theme

/-- The argument of the fetch call.  The body is the URLSearchParams object,
represented by its list of name and value pairs in insertion order. -/
structure Request where
  url : String
  method : String
  headers : List (String × String)
  body : List (String × String)
  deriving DecidableEq

/-- An extra argument of a console call. -/
inductive LogArg where
  | val (v : JSVal) : LogArg
  | err (e : JSError) : LogArg

/-- The observable actions of the script. -/
inductive Effect where
  /-- payBtn.addEventListener("click", ...) -/
  | addClickListener : Effect
  /-- e.preventDefault() -/
  | preventDefault : Effect
  /-- console.log(msg, ...args) -/
  | consoleLog (msg : String) (args : List LogArg) : Effect
  /-- console.error(msg, ...args) -/
  | consoleError (msg : String) (args : List LogArg) : Effect
  /-- new Razorpay(options) -/
  | newRazorpay (options : Options) : Effect
  /-- rzp.on("payment.failed", ...) -/
  | onPaymentFailed : Effect
  /-- rzp.open() -/
  | rzpOpen : Effect
  /-- fetch(url, init) -/
  | fetch (req : Request) : Effect
  /-- window.location.href = url -/
  | setLocationHref (url : String) : Effect
  /-- alert(text) -/
  | alert (text : String) : Effect

/-- A run of a callback: the effects performed so far, in order, and either the
value it produced or the exception that escaped it. -/
structure Run (α : Type) where
  effects : List Effect
  result : Except JSError α

/-- A run that performs nothing and produces a value. -/
def Run.pure {α : Type} (a : α) : Run α := ⟨[], .ok a⟩

/-- Sequencing: the second part runs only when the first completes normally. -/
def Run.bind {α β : Type} (r : Run α) (f : α → Run β) : Run β :=
  match r.result with
  | .error e => ⟨r.effects, .error e⟩
  | .ok a => ⟨r.effects ++ (f a).effects, (f a).result⟩

instance : Monad Run where
  pure := Run.pure
  bind := Run.bind

/-- Perform one effect. -/
def emit (e : Effect) : Run Unit := ⟨[e], .ok ()⟩

/-- Evaluate a fallible expression inside a run. -/
def liftE {α : Type} (x : Except JSError α) : Run α := ⟨[], x⟩

/-- Whether a run ended with an exception escaping the callback. -/
def Run.throws {α : Type} (r : Run α) : Bool :=
  match r.result with
  | .error _ => true
  | .ok _ => false

/-! ## The callbacks -/

/-- The DOMContentLoaded listener (lines 1-5 and 70): look the control up, log
and return when it is missing, otherwise register the click listener. -/
def domContentLoaded (page : Page) : Run Unit :=
  if !page.payBtn then
    emit (.consoleError "❌ Razorpay button not found!" [])
  else
    emit .addClickListener

/-- The object literal of lines 15-58, built from the value of razorpayData. -/
def buildOptions (data : JSVal) : Except JSError Options := do
  let key ← data.getProp "key"
  let amount ← data.getProp "amount"
  let currency ← data.getProp "currency"
  let bookingId ← data.getProp "bookingId"
  let bookingText ← bookingId.toStr
  let orderId ← data.getProp "orderId"
  return {
    key := key
    amount := amount
    currency := currency
    name := "Rural Sports Hub"
    description := "Payment for Booking #" ++ bookingText
    order_id := orderId
    prefill := { name := "User", email := "user@example.com", contact := "9999999999" }
    theme := { color := "#3399cc" } }

/-- The click listener (lines 5-69). -/
def clickListener (page : Page) : Run Unit := do
  emit .preventDefault
  if typeofGlobal page.razorpayData == "undefined" then
    emit (.consoleError "❌ razorpayData is not defined!" [])
  else
    let data ← liftE (readGlobal "razorpayData" page.razorpayData)
    emit (.consoleLog "🧩 Razorpay options loaded:" [.val data])
    let options ← liftE (buildOptions data)
    if !page.razorpaySdk then
      liftE (.error (.referenceError "Razorpay"))
    else
      emit (.newRazorpay options)
      emit .onPaymentFailed
      emit .rzpOpen

/-- The success callback (lines 24-39): log the payment result and send the
verification request.  The booking identifier is read from the global
razorpayData when the callback runs.  The four values are read while the
object literal of lines 33-38 is built; the URLSearchParams constructor then
converts them to strings, in order. -/
def handler (page : Page) (response : JSVal) : Run Unit := do
  emit (.consoleLog "✅ Payment success:" [.val response])
  let paymentId ← liftE (response.getProp "razorpay_payment_id")
  let orderId ← liftE (response.getProp "razorpay_order_id")
  let signature ← liftE (response.getProp "razorpay_signature")
  let data ← liftE (readGlobal "razorpayData" page.razorpayData)
  let bookingId ← liftE (data.getProp "bookingId")
  let paymentText ← liftE paymentId.toStr
  let orderText ← liftE orderId.toStr
  let signatureText ← liftE signature.toStr
  let bookingText ← liftE bookingId.toStr
  emit (.fetch {
    url := "/booking/payment/handler/"
    method := "POST"
    headers := [("Content-Type", "application/x-www-form-urlencoded"),
                ("X-Requested-With", "XMLHttpRequest")]
    body := [("razorpay_payment_id", paymentText),
             ("razorpay_order_id", orderText),
             ("razorpay_signature", signatureText),
             ("app_order_id", bookingText)] })

/-- How the verification request ends, as seen by the promise chain. -/
inductive FetchOutcome where
  /-- The promise returned by fetch rejects. -/
  | rejected (err : JSError) : FetchOutcome
  /-- A response arrives but res.json() rejects. -/
  | unparsable (err : JSError) : FetchOutcome
  /-- A response arrives and res.json() resolves to a value. -/
  | parsed (data : JSVal) : FetchOutcome

/-- The second then-callback (lines 41-47). -/
def onData (data : JSVal) : Run Unit := do
  let status ← liftE (data.getProp "status")
  if status.strictEqStr "success" then
    let target ← liftE (data.getProp "redirect_url")
    let url ← liftE target.toStr
    emit (.setLocationHref url)
  else
    let message ← liftE (data.getProp "message")
    let text ← liftE message.toStr
    emit (.alert ("⚠️ Payment verification failed: " ++ text))

/-- The catch-callback (line 48). -/
def onError (err : JSError) : Run Unit :=
  emit (.consoleError "Verification error:" [.err err])

/-- The promise chain of lines 40-48: a rejection of the request or of the body
parse, and an exception raised inside the second then-callback, all reach the
catch-callback. -/
def continuation (outcome : FetchOutcome) : Run Unit :=
  match outcome with
  | .rejected err => onError err
  | .unparsable err => onError err
  | .parsed data =>
    match (onData data).result with
    | .ok _ => onData data
    | .error err => ⟨(onData data).effects ++ (onError err).effects, (onError err).result⟩

/-- The "payment.failed" listener (lines 63-66). -/
def paymentFailed (response : JSVal) : Run Unit := do
  let error ← liftE (response.getProp "error")
  emit (.consoleError "🔴 Payment failed:" [.val error])
  let error ← liftE (response.getProp "error")
  let description ← liftE (error.getProp "description")
  let text ← liftE description.toStr
  emit (.alert ("Payment failed: " ++ text))

/-- The effects of a sequence of activations of the control, one page state per
activation.  An exception escaping one listener call does not prevent the next
event from being dispatched. -/
def activations : List Page → List Effect
  | [] => []
  | page :: rest => (clickListener page).effects ++ activations rest

/-! ## Observations on effect traces -/

/-- The configurations passed to the dialog constructor, in order. -/
def constructed : List Effect → List Options
  | [] => []
  | .newRazorpay o :: rest => o :: constructed rest
  | _ :: rest => constructed rest

/-- The requests sent, in order. -/
def requests : List Effect → List Request
  | [] => []
  | .fetch r :: rest => r :: requests rest
  | _ :: rest => requests rest

/-- The texts of the alerts shown, in order. -/
def alerts : List Effect → List String
  | [] => []
  | .alert t :: rest => t :: alerts rest
  | _ :: rest => alerts rest

/-- The targets assigned to the browser location, in order. -/
def navigations : List Effect → List String
  | [] => []
  | .setLocationHref u :: rest => u :: navigations rest
  | _ :: rest => navigations rest

/-- The console.error calls, in order. -/
def errorLogs : List Effect → List (String × List LogArg)
  | [] => []
  | .consoleError m a :: rest => (m, a) :: errorLogs rest
  | _ :: rest => errorLogs rest

/-- The number of dialogs opened. -/
def opened : List Effect → Nat
  | [] => 0
  | .rzpOpen :: rest => opened rest + 1
  | _ :: rest => opened rest

/-- The number of failure listeners registered on dialog instances. -/
def failureListeners : List Effect → Nat
  | [] => 0
  | .onPaymentFailed :: rest => failureListeners rest + 1
  | _ :: rest => failureListeners rest

/-- The number of click listeners registered. -/
def clickListeners : List Effect → Nat
  | [] => 0
  | .addClickListener :: rest => clickListeners rest + 1
  | _ :: rest => clickListeners rest

/-- One string occurs inside another. -/
def Contains (text part : String) : Prop := part.data <:+: text.data

/-- The effects of running the click listener once per registration. -/
def runListeners (page : Page) : Nat → List Effect
  | 0 => []
  | n + 1 => (clickListener page).effects ++ runListeners page n

/-- The click listener runs once per registration for every activation of the
control; with no registration an activation runs nothing. -/
def dispatchClicks (registered : Nat) : List Page → List Effect
  | [] => []
  | page :: rest => runListeners page registered ++ dispatchClicks registered rest

/-- A page visit: setup on DOMContentLoaded, then the given number of
activations of the control. -/
def session (page : Page) (clicks : Nat) : List Effect :=
  (domContentLoaded page).effects ++
    dispatchClicks (clickListeners (domContentLoaded page).effects) (List.replicate clicks page)

/-- The descriptor of the worked example: key k1, amount 500, currency INR,
order order_1, booking B42. -/
def exampleDescriptor : List (String × JSVal) :=
  [("key", .str "k1"), ("amount", .num 500 (by decide)), ("currency", .str "INR"),
   ("orderId", .str "order_1"), ("bookingId", .str "B42")]

/-- A page with the control, the example descriptor and the dialog SDK. -/
def examplePage : Page :=
  { payBtn := true, razorpayData := some (.obj exampleDescriptor), razorpaySdk := true }

/-- The payment result of the worked example. -/
def exampleResult : List (String × JSVal) :=
  [("razorpay_payment_id", .str "p1"), ("razorpay_order_id", .str "order_1"),
   ("razorpay_signature", .str "sig1")]

/-- An order descriptor as the page supplies it: provider key, amount, currency,
provider order identifier and booking identifier. -/
structure Descriptor where
  key : JSVal
  amount : JSVal
  currency : JSVal
  orderId : JSVal
  bookingId : String

/-- The value of the global razorpayData for a descriptor. -/
def Descriptor.toJS (d : Descriptor) : JSVal :=
  .obj [("key", d.key), ("amount", d.amount), ("currency", d.currency),
        ("orderId", d.orderId), ("bookingId", .str d.bookingId)]

/-- A page with the control, the dialog SDK and the given descriptor. -/
def Descriptor.page (d : Descriptor) : Page :=
  { payBtn := true, razorpayData := some d.toJS, razorpaySdk := true }

/-- A page state at an activation carries the descriptor: the dialog SDK is
loaded and razorpayData is an object whose five properties hold the
descriptor's values (other properties, and any property order, are allowed). -/
def Descriptor.On (d : Descriptor) (page : Page) : Prop :=
  page.razorpaySdk = true ∧
  ∃ fields, page.razorpayData = some (.obj fields) ∧
    fields.lookup "key" = some d.key ∧
    fields.lookup "amount" = some d.amount ∧
    fields.lookup "currency" = some d.currency ∧
    fields.lookup "orderId" = some d.orderId ∧
    fields.lookup "bookingId" = some (.str d.bookingId)

/-- A second descriptor, differing from the worked example in every field. -/
def otherDescriptor : Descriptor :=
  { key := .str "k2", amount := .num 1250 (by decide), currency := .str "USD",
    orderId := .str "order_2", bookingId := "B7" }

/-- The descriptor of the worked example as a record. -/
def firstDescriptor : Descriptor :=
  { key := .str "k1", amount := .num 500 (by decide), currency := .str "INR",
    orderId := .str "order_1", bookingId := "B42" }

/-! ## Basic facts about the embedding -/

theorem typeof_eq_undefined (v : JSVal) : v.typeof = "undefined" ↔ v = .undefined := by
  cases v <;> simp [JSVal.typeof]

theorem typeofGlobal_eq_undefined (g : Option JSVal) :
    typeofGlobal g = "undefined" ↔ g = none ∨ g = some .undefined := by
  cases g with
  | none => simp [typeofGlobal]
  | some v => simp [typeofGlobal, typeof_eq_undefined]

theorem getProp_obj (fields : List (String × JSVal)) (k : String) :
    (JSVal.obj fields).getProp k = .ok ((fields.lookup k).getD .undefined) := rfl

theorem getProp_nullish (v : JSVal) (k : String) (h : v.isNullish = true) :
    v.getProp k = .error (.typeError k) := by
  cases v <;> first | rfl | simp [JSVal.isNullish] at h

theorem getProp_ok (v : JSVal) (k : String) (h : v.isNullish = false) :
    ∃ w, v.getProp k = .ok w := by
  cases v <;> first | exact ⟨_, rfl⟩ | simp [JSVal.isNullish] at h

theorem getProp_ok_not_nullish (v w : JSVal) (k : String) (h : v.getProp k = .ok w) :
    v.isNullish = false := by
  cases v <;> first | rfl | simp [JSVal.getProp] at h

theorem toStr_str (s : String) : (JSVal.str s).toStr = .ok s := rfl

theorem toStr_own (v : JSVal) (h : v.hasOwnToString = true) :
    v.toStr = .error (.typeError "Cannot convert object to primitive value") := by
  cases v with
  | obj fields =>
    cases hl : fields.lookup "toString" with
    | none => simp [JSVal.hasOwnToString, hl] at h
    | some w => simp [JSVal.toStr, hl]
  | _ => simp [JSVal.hasOwnToString] at h

theorem toStr_ok (v : JSVal) (h : v.hasOwnToString = false) : ∃ s, v.toStr = .ok s := by
  cases v with
  | obj fields =>
    cases hl : fields.lookup "toString" with
    | none => exact ⟨"[object Object]", by simp [JSVal.toStr, hl]⟩
    | some w => simp [JSVal.hasOwnToString, hl] at h
  | bool b => cases b <;> exact ⟨_, rfl⟩
  | _ => exact ⟨_, rfl⟩

theorem clickListener_absent (page : Page)
    (h : page.razorpayData = none ∨ page.razorpayData = some .undefined) :
    clickListener page =
      ⟨[.preventDefault, .consoleError "❌ razorpayData is not defined!" []], .ok ()⟩ := by
  have ht := (typeofGlobal_eq_undefined page.razorpayData).mpr h
  simp [clickListener, ht, Bind.bind, Run.bind, emit]

theorem clickListener_present (page : Page) (d : JSVal) (o : Options)
    (hd : page.razorpayData = some d) (hu : d ≠ .undefined)
    (ho : buildOptions d = .ok o) (hs : page.razorpaySdk = true) :
    clickListener page =
      ⟨[.preventDefault, .consoleLog "🧩 Razorpay options loaded:" [.val d],
        .newRazorpay o, .onPaymentFailed, .rzpOpen], .ok ()⟩ := by
  have ht : ¬ typeofGlobal (some d) = "undefined" := by
    rw [typeofGlobal_eq_undefined]; simp [hu]
  simp [clickListener, ht, hd, ho, hs, readGlobal, Bind.bind, Run.bind, emit, liftE]

theorem clickListener_unbuilt (page : Page) (d : JSVal) (e : JSError)
    (hd : page.razorpayData = some d) (hu : d ≠ .undefined)
    (ho : buildOptions d = .error e) :
    clickListener page =
      ⟨[.preventDefault, .consoleLog "🧩 Razorpay options loaded:" [.val d]], .error e⟩ := by
  have ht : ¬ typeofGlobal (some d) = "undefined" := by
    rw [typeofGlobal_eq_undefined]; simp [hu]
  simp [clickListener, ht, hd, ho, readGlobal, Bind.bind, Run.bind, emit, liftE]

theorem clickListener_unloaded (page : Page) (d : JSVal) (o : Options)
    (hd : page.razorpayData = some d) (hu : d ≠ .undefined)
    (ho : buildOptions d = .ok o) (hs : page.razorpaySdk = false) :
    clickListener page =
      ⟨[.preventDefault, .consoleLog "🧩 Razorpay options loaded:" [.val d]],
        .error (.referenceError "Razorpay")⟩ := by
  have ht : ¬ typeofGlobal (some d) = "undefined" := by
    rw [typeofGlobal_eq_undefined]; simp [hu]
  simp [clickListener, ht, hd, ho, hs, readGlobal, Bind.bind, Run.bind, emit, liftE]

theorem buildOptions_nullish (d : JSVal) (h : d.isNullish = true) :
    buildOptions d = .error (.typeError "key") := by
  simp [buildOptions, getProp_nullish d _ h, Bind.bind, Except.bind]

theorem buildOptions_unprintable (d b : JSVal) (hb : d.getProp "bookingId" = .ok b)
    (h : b.hasOwnToString = true) :
    buildOptions d = .error (.typeError "Cannot convert object to primitive value") := by
  have hn := getProp_ok_not_nullish d b _ hb
  obtain ⟨k, hk⟩ := getProp_ok d "key" hn
  obtain ⟨a, ha⟩ := getProp_ok d "amount" hn
  obtain ⟨c, hc⟩ := getProp_ok d "currency" hn
  simp [buildOptions, hb, hk, ha, hc, toStr_own b h, Bind.bind, Except.bind]

theorem buildOptions_printable (d b : JSVal) (hb : d.getProp "bookingId" = .ok b)
    (h : b.hasOwnToString = false) : ∃ o, buildOptions d = .ok o := by
  have hn := getProp_ok_not_nullish d b _ hb
  obtain ⟨k, hk⟩ := getProp_ok d "key" hn
  obtain ⟨a, ha⟩ := getProp_ok d "amount" hn
  obtain ⟨c, hc⟩ := getProp_ok d "currency" hn
  obtain ⟨o, ho⟩ := getProp_ok d "orderId" hn
  obtain ⟨t, ht⟩ := toStr_ok b h
  exact ⟨_, by simp [buildOptions, hb, hk, ha, hc, ho, ht, Bind.bind, Except.bind, Pure.pure,
    Except.pure]; rfl⟩

theorem contains_append_right (a b : String) : Contains (a ++ b) b := by
  unfold Contains
  rw [String.data_append]
  exact (List.suffix_append a.data b.data).isInfix

theorem constructed_append (xs ys : List Effect) :
    constructed (xs ++ ys) = constructed xs ++ constructed ys := by
  induction xs with
  | nil => rfl
  | cons x xs ih => cases x <;> simp [constructed, ih]

theorem opened_append (xs ys : List Effect) :
    opened (xs ++ ys) = opened xs + opened ys := by
  induction xs with
  | nil => simp [opened]
  | cons x xs ih =>
    cases x <;> simp [opened, ih]
    omega

theorem dispatchClicks_zero (pages : List Page) : dispatchClicks 0 pages = [] := by
  induction pages with
  | nil => rfl
  | cons p rest ih => simp [dispatchClicks, runListeners, ih]

/-! ## The click listener -/

/-- C1: for every order descriptor present at activation, the configuration
passed to the dialog constructor carries the descriptor's key, amount, currency
and order identifier unchanged, the fixed name "Rural Sports Hub", the
description "Payment for Booking #" followed by the booking identifier (which
therefore occurs in it), and the fixed prefill User / user@example.com /
9999999999. -/
theorem click_configuration (page : Page) (fields : List (String × JSVal))
    (key amount currency orderId : JSVal) (bookingId : String)
    (hd : page.razorpayData = some (.obj fields))
    (hs : page.razorpaySdk = true)
    (hk : fields.lookup "key" = some key)
    (ha : fields.lookup "amount" = some amount)
    (hc : fields.lookup "currency" = some currency)
    (ho : fields.lookup "orderId" = some orderId)
    (hb : fields.lookup "bookingId" = some (.str bookingId)) :
    constructed (clickListener page).effects =
      [{ key := key
         amount := amount
         currency := currency
         name := "Rural Sports Hub"
         description := "Payment for Booking #" ++ bookingId
         order_id := orderId
         prefill := { name := "User", email := "user@example.com", contact := "9999999999" }
         theme := { color := "#3399cc" } }] ∧
    Contains ("Payment for Booking #" ++ bookingId) bookingId := by
  refine ⟨?_, contains_append_right _ _⟩
  have hbuild : buildOptions (.obj fields) = .ok
      { key := key, amount := amount, currency := currency, name := "Rural Sports Hub",
        description := "Payment for Booking #" ++ bookingId, order_id := orderId,
        prefill := { name := "User", email := "user@example.com", contact := "9999999999" },
        theme := { color := "#3399cc" } } := by
    simp [buildOptions, getProp_obj, hk, ha, hc, ho, hb, JSVal.toStr, Bind.bind, Except.bind,
      Pure.pure, Except.pure]
  rw [clickListener_present page _ _ hd (by simp) hbuild hs]
  rfl

/-- Witness for C1: the worked example of the specification. -/
theorem click_configuration_witness :
    constructed (clickListener examplePage).effects =
      [{ key := .str "k1"
         amount := .num 500 (by decide)
         currency := .str "INR"
         name := "Rural Sports Hub"
         description := "Payment for Booking #" ++ "B42"
         order_id := .str "order_1"
         prefill := { name := "User", email := "user@example.com", contact := "9999999999" }
         theme := { color := "#3399cc" } }] ∧
    Contains ("Payment for Booking #" ++ "B42") "B42" :=
  click_configuration examplePage exampleDescriptor (.str "k1") (.num 500 (by decide))
    (.str "INR")
    (.str "order_1") "B42" rfl rfl rfl rfl rfl rfl rfl

/-- C6: when no order descriptor is available at activation (the global is not
declared, or is undefined), the click listener logs an error and returns: no
dialog is constructed or opened, no failure listener is registered and no
request is sent. -/
theorem click_without_descriptor (page : Page)
    (h : page.razorpayData = none ∨ page.razorpayData = some .undefined) :
    (clickListener page).effects =
      [.preventDefault, .consoleError "❌ razorpayData is not defined!" []] ∧
    (clickListener page).result = .ok () ∧
    constructed (clickListener page).effects = [] ∧
    opened (clickListener page).effects = 0 ∧
    failureListeners (clickListener page).effects = 0 ∧
    requests (clickListener page).effects = [] := by
  rw [clickListener_absent page h]
  exact ⟨rfl, rfl, rfl, rfl, rfl, rfl⟩

/-- Witness for C6: a page whose descriptor global is not declared. -/
theorem click_without_descriptor_witness :
    (clickListener ⟨true, none, true⟩).effects =
      [.preventDefault, .consoleError "❌ razorpayData is not defined!" []] ∧
    (clickListener ⟨true, none, true⟩).result = .ok () ∧
    constructed (clickListener ⟨true, none, true⟩).effects = [] ∧
    opened (clickListener ⟨true, none, true⟩).effects = 0 ∧
    failureListeners (clickListener ⟨true, none, true⟩).effects = 0 ∧
    requests (clickListener ⟨true, none, true⟩).effects = [] :=
  click_without_descriptor ⟨true, none, true⟩ (Or.inl rfl)

/-! ## Setup -/

/-- C9: when the control is absent at setup time, setup logs one error and does
nothing else: it completes normally, registers no click listener, and however
often the page is then activated the dialog constructor is never invoked. -/
theorem setup_without_control (page : Page) (clicks : Nat) (h : page.payBtn = false) :
    (domContentLoaded page).effects = [.consoleError "❌ Razorpay button not found!" []] ∧
    (domContentLoaded page).result = .ok () ∧
    clickListeners (domContentLoaded page).effects = 0 ∧
    session page clicks = [.consoleError "❌ Razorpay button not found!" []] ∧
    constructed (session page clicks) = [] := by
  have hsetup : domContentLoaded page =
      ⟨[.consoleError "❌ Razorpay button not found!" []], .ok ()⟩ := by
    simp [domContentLoaded, h, emit]
  have hsession : session page clicks = [.consoleError "❌ Razorpay button not found!" []] := by
    simp [session, hsetup, clickListeners, dispatchClicks_zero]
  rw [hsession, hsetup]
  exact ⟨rfl, rfl, rfl, rfl, rfl⟩

/-- Witness for C9: a page without the control, activated three times. -/
theorem setup_without_control_witness :
    (domContentLoaded ⟨false, some (.obj exampleDescriptor), true⟩).effects =
      [.consoleError "❌ Razorpay button not found!" []] ∧
    (domContentLoaded ⟨false, some (.obj exampleDescriptor), true⟩).result = .ok () ∧
    clickListeners (domContentLoaded ⟨false, some (.obj exampleDescriptor), true⟩).effects = 0 ∧
    session ⟨false, some (.obj exampleDescriptor), true⟩ 3 =
      [.consoleError "❌ Razorpay button not found!" []] ∧
    constructed (session ⟨false, some (.obj exampleDescriptor), true⟩ 3) = [] :=
  setup_without_control ⟨false, some (.obj exampleDescriptor), true⟩ 3 rfl


/-- Shape of the second then-callback: it either raises before any effect (on
reading the status of undefined or null, or on converting the redirect target
or the message), or assigns the location once, or shows one alert. -/
theorem onData_shape (data : JSVal) :
    (∃ e, onData data = ⟨[], .error e⟩) ∨
    (∃ u, onData data = ⟨[.setLocationHref u], .ok ()⟩) ∨
    (∃ t, onData data = ⟨[.alert t], .ok ()⟩) := by
  cases data with
  | undefined => exact Or.inl ⟨_, rfl⟩
  | null => exact Or.inl ⟨_, rfl⟩
  | obj fields =>
    by_cases hst : ((fields.lookup "status").getD .undefined).strictEqStr "success" = true
    · cases hc : ((fields.lookup "redirect_url").getD .undefined).hasOwnToString with
      | true =>
        refine Or.inl ⟨.typeError "Cannot convert object to primitive value", ?_⟩
        simp [onData, getProp_obj, hst, toStr_own _ hc, Bind.bind, Run.bind, emit, liftE]
      | false =>
        obtain ⟨u, hu⟩ := toStr_ok _ hc
        refine Or.inr (Or.inl ⟨u, ?_⟩)
        simp [onData, getProp_obj, hst, hu, Bind.bind, Run.bind, emit, liftE]
    · cases hc : ((fields.lookup "message").getD .undefined).hasOwnToString with
      | true =>
        refine Or.inl ⟨.typeError "Cannot convert object to primitive value", ?_⟩
        simp [onData, getProp_obj, hst, toStr_own _ hc, Bind.bind, Run.bind, emit, liftE]
      | false =>
        obtain ⟨m, hm⟩ := toStr_ok _ hc
        refine Or.inr (Or.inr ⟨"⚠️ Payment verification failed: " ++ m, ?_⟩)
        simp [onData, getProp_obj, hst, hm, Bind.bind, Run.bind, emit, liftE]
  | bool b => exact Or.inr (Or.inr ⟨_, rfl⟩)
  | num n safe => exact Or.inr (Or.inr ⟨_, rfl⟩)
  | str s => exact Or.inr (Or.inr ⟨_, rfl⟩)

theorem continuation_parsed_ok (data : JSVal) (r : Run Unit) (h : onData data = r)
    (hr : r.result = .ok ()) : continuation (.parsed data) = r := by
  subst h
  simp [continuation, hr]

theorem continuation_no_throw (outcome : FetchOutcome) :
    (continuation outcome).result = .ok () := by
  cases outcome with
  | rejected err => rfl
  | unparsable err => rfl
  | parsed data =>
    rcases onData_shape data with ⟨e, h⟩ | ⟨u, h⟩ | ⟨t, h⟩ <;>
      simp [continuation, h, onError, emit]

theorem continuation_no_request (outcome : FetchOutcome) :
    requests (continuation outcome).effects = [] := by
  cases outcome with
  | rejected err => rfl
  | unparsable err => rfl
  | parsed data =>
    rcases onData_shape data with ⟨e, h⟩ | ⟨u, h⟩ | ⟨t, h⟩ <;>
      simp [continuation, h, onError, emit, requests]

theorem strictEqStr_false_of_lookup (fields : List (String × JSVal)) (k lit : String)
    (h : fields.lookup k ≠ some (.str lit)) :
    ((fields.lookup k).getD .undefined).strictEqStr lit = false := by
  cases hl : fields.lookup k with
  | none => rfl
  | some v =>
    cases v with
    | str s =>
      have hne : s ≠ lit := fun hs => h (by rw [hl, hs])
      simp [JSVal.strictEqStr, hne]
    | _ => rfl

/-! ## The success callback and the verification outcome -/

/-- C2: for every payment result made of three strings and every descriptor
with a booking identifier, the success callback logs the result and sends
exactly one request: POST to /booking/payment/handler/ with the two fixed
headers and a form body of the four fields razorpay_payment_id,
razorpay_order_id, razorpay_signature, app_order_id, in that order, holding the
three strings unmodified and the booking identifier; the promise chain sends
no request of its own. -/
theorem handler_request (page : Page) (result descriptor : List (String × JSVal))
    (paymentId orderId signature bookingId : String)
    (hd : page.razorpayData = some (.obj descriptor))
    (hb : descriptor.lookup "bookingId" = some (.str bookingId))
    (hp : result.lookup "razorpay_payment_id" = some (.str paymentId))
    (ho : result.lookup "razorpay_order_id" = some (.str orderId))
    (hg : result.lookup "razorpay_signature" = some (.str signature)) :
    requests (handler page (.obj result)).effects =
      [{ url := "/booking/payment/handler/"
         method := "POST"
         headers := [("Content-Type", "application/x-www-form-urlencoded"),
                     ("X-Requested-With", "XMLHttpRequest")]
         body := [("razorpay_payment_id", paymentId),
                  ("razorpay_order_id", orderId),
                  ("razorpay_signature", signature),
                  ("app_order_id", bookingId)] }] ∧
    (handler page (.obj result)).result = .ok () ∧
    ∀ outcome, requests (continuation outcome).effects = [] := by
  refine ⟨?_, ?_, continuation_no_request⟩ <;>
    simp [handler, getProp_obj, hd, hb, hp, ho, hg, readGlobal, JSVal.toStr, requests,
      Bind.bind, Run.bind, emit, liftE]

/-- Witness for C2: the payment result and descriptor of the worked example. -/
theorem handler_request_witness :
    requests (handler examplePage (.obj exampleResult)).effects =
      [{ url := "/booking/payment/handler/"
         method := "POST"
         headers := [("Content-Type", "application/x-www-form-urlencoded"),
                     ("X-Requested-With", "XMLHttpRequest")]
         body := [("razorpay_payment_id", "p1"),
                  ("razorpay_order_id", "order_1"),
                  ("razorpay_signature", "sig1"),
                  ("app_order_id", "B42")] }] ∧
    (handler examplePage (.obj exampleResult)).result = .ok () ∧
    ∀ outcome, requests (continuation outcome).effects = [] :=
  handler_request examplePage exampleResult exampleDescriptor "p1" "order_1" "sig1" "B42"
    rfl rfl rfl rfl rfl

/-- C3: for every verification response whose status is the string "success"
and whose redirect target is u, the promise chain assigns exactly u to the
browser location, once, and does nothing else: no alert is shown. -/
theorem success_navigates (fields : List (String × JSVal)) (u : String)
    (hst : fields.lookup "status" = some (.str "success"))
    (hu : fields.lookup "redirect_url" = some (.str u)) :
    continuation (.parsed (.obj fields)) = ⟨[.setLocationHref u], .ok ()⟩ ∧
    navigations (continuation (.parsed (.obj fields))).effects = [u] ∧
    alerts (continuation (.parsed (.obj fields))).effects = [] := by
  have h : continuation (.parsed (.obj fields)) = ⟨[.setLocationHref u], .ok ()⟩ := by
    apply continuation_parsed_ok _ _ _ rfl
    simp [onData, getProp_obj, hst, hu, JSVal.strictEqStr, JSVal.toStr, Bind.bind, Run.bind,
      emit, liftE]
  rw [h]
  exact ⟨rfl, rfl, rfl⟩

/-- Witness for C3: the response with status success and redirect /done. -/
theorem success_navigates_witness :
    continuation (.parsed (.obj [("status", .str "success"), ("redirect_url", .str "/done")])) =
      ⟨[.setLocationHref "/done"], .ok ()⟩ ∧
    navigations (continuation (.parsed (.obj [("status", .str "success"),
      ("redirect_url", .str "/done")]))).effects = ["/done"] ∧
    alerts (continuation (.parsed (.obj [("status", .str "success"),
      ("redirect_url", .str "/done")]))).effects = [] :=
  success_navigates [("status", .str "success"), ("redirect_url", .str "/done")] "/done" rfl rfl

/-- C4: for every verification response whose status is anything other than
the string "success" (a missing status included), with message m, the promise
chain shows exactly one alert, whose text ends with m, and does nothing else:
the location is not assigned and no request is sent. -/
theorem failure_alerts (fields : List (String × JSVal)) (m : String)
    (hst : fields.lookup "status" ≠ some (.str "success"))
    (hm : fields.lookup "message" = some (.str m)) :
    continuation (.parsed (.obj fields)) =
      ⟨[.alert ("⚠️ Payment verification failed: " ++ m)], .ok ()⟩ ∧
    alerts (continuation (.parsed (.obj fields))).effects =
      ["⚠️ Payment verification failed: " ++ m] ∧
    Contains ("⚠️ Payment verification failed: " ++ m) m ∧
    navigations (continuation (.parsed (.obj fields))).effects = [] ∧
    requests (continuation (.parsed (.obj fields))).effects = [] := by
  have h : continuation (.parsed (.obj fields)) =
      ⟨[.alert ("⚠️ Payment verification failed: " ++ m)], .ok ()⟩ := by
    apply continuation_parsed_ok _ _ _ rfl
    simp [onData, getProp_obj, strictEqStr_false_of_lookup fields "status" "success" hst, hm,
      JSVal.toStr, Bind.bind, Run.bind, emit, liftE]
  rw [h]
  exact ⟨rfl, rfl, contains_append_right _ _, rfl, rfl⟩

/-- Witness for C4: the response with status failed and message bad signature. -/
theorem failure_alerts_witness :
    continuation (.parsed (.obj [("status", .str "failed"), ("message", .str "bad signature")])) =
      ⟨[.alert ("⚠️ Payment verification failed: " ++ "bad signature")], .ok ()⟩ ∧
    alerts (continuation (.parsed (.obj [("status", .str "failed"),
      ("message", .str "bad signature")]))).effects =
      ["⚠️ Payment verification failed: " ++ "bad signature"] ∧
    Contains ("⚠️ Payment verification failed: " ++ "bad signature") "bad signature" ∧
    navigations (continuation (.parsed (.obj [("status", .str "failed"),
      ("message", .str "bad signature")]))).effects = [] ∧
    requests (continuation (.parsed (.obj [("status", .str "failed"),
      ("message", .str "bad signature")]))).effects = [] :=
  failure_alerts [("status", .str "failed"), ("message", .str "bad signature")] "bad signature"
    (by simp [List.lookup]) rfl

/-- C8: when the verification request is rejected, or its response body cannot
be parsed as JSON, the promise chain logs the error and does nothing else: no
alert, no assignment to the location, no further request. -/
theorem transport_failure_logged (err : JSError) :
    continuation (.rejected err) = ⟨[.consoleError "Verification error:" [.err err]], .ok ()⟩ ∧
    continuation (.unparsable err) = ⟨[.consoleError "Verification error:" [.err err]], .ok ()⟩ ∧
    alerts (continuation (.rejected err)).effects = [] ∧
    alerts (continuation (.unparsable err)).effects = [] ∧
    navigations (continuation (.rejected err)).effects = [] ∧
    navigations (continuation (.unparsable err)).effects = [] ∧
    requests (continuation (.rejected err)).effects = [] ∧
    requests (continuation (.unparsable err)).effects = [] :=
  ⟨rfl, rfl, rfl, rfl, rfl, rfl, rfl, rfl⟩

/-! ## The failure listener -/

/-- C5: for every failure event carrying an error object with description s,
the failure listener logs the error object and shows one alert, whose text
ends with s; it sends no request and does not assign the location. -/
theorem failure_event_alerts (event error : List (String × JSVal)) (s : String)
    (he : event.lookup "error" = some (.obj error))
    (hs : error.lookup "description" = some (.str s)) :
    paymentFailed (.obj event) =
      ⟨[.consoleError "🔴 Payment failed:" [.val (.obj error)],
        .alert ("Payment failed: " ++ s)], .ok ()⟩ ∧
    Contains ("Payment failed: " ++ s) s ∧
    requests (paymentFailed (.obj event)).effects = [] ∧
    navigations (paymentFailed (.obj event)).effects = [] := by
  have h : paymentFailed (.obj event) =
      ⟨[.consoleError "🔴 Payment failed:" [.val (.obj error)],
        .alert ("Payment failed: " ++ s)], .ok ()⟩ := by
    simp [paymentFailed, getProp_obj, he, hs, JSVal.toStr, Bind.bind, Run.bind, emit, liftE]
  rw [h]
  exact ⟨rfl, contains_append_right _ _, rfl, rfl⟩

/-- Witness for C5: the failure event with description insufficient funds. -/
theorem failure_event_alerts_witness :
    paymentFailed (.obj [("error", .obj [("description", .str "insufficient funds")])]) =
      ⟨[.consoleError "🔴 Payment failed:"
          [.val (.obj [("description", .str "insufficient funds")])],
        .alert ("Payment failed: " ++ "insufficient funds")], .ok ()⟩ ∧
    Contains ("Payment failed: " ++ "insufficient funds") "insufficient funds" ∧
    requests (paymentFailed (.obj [("error",
      .obj [("description", .str "insufficient funds")])])).effects = [] ∧
    navigations (paymentFailed (.obj [("error",
      .obj [("description", .str "insufficient funds")])])).effects = [] :=
  failure_event_alerts [("error", .obj [("description", .str "insufficient funds")])]
    [("description", .str "insufficient funds")] "insufficient funds" rfl rfl

/-! ## Repeated activation -/

/-- C10: nothing guards against repeated activation.  For every n and every
sequence of n activations, each on a page that carries an order descriptor, the
dialog constructor is invoked exactly n times and a dialog is opened exactly n
times; the i-th configuration is the one determined by the descriptor of the
i-th activation alone (its key, amount, currency and order identifier, its
booking identifier in the description, and the fixed name, prefill and theme),
whatever the earlier activations were. -/
theorem repeated_activation (ds : List Descriptor) (pages : List Page)
    (h : List.Forall₂ Descriptor.On ds pages) :
    constructed (activations pages) =
      ds.map (fun d =>
        { key := d.key
          amount := d.amount
          currency := d.currency
          name := "Rural Sports Hub"
          description := "Payment for Booking #" ++ d.bookingId
          order_id := d.orderId
          prefill := { name := "User", email := "user@example.com", contact := "9999999999" }
          theme := { color := "#3399cc" } }) ∧
    (constructed (activations pages)).length = pages.length ∧
    opened (activations pages) = pages.length := by
  induction h with
  | nil => exact ⟨rfl, rfl, rfl⟩
  | @cons d p ds pages hd _ ih =>
    obtain ⟨hs, fields, hf, hk, ha, hc, ho, hb⟩ := hd
    obtain ⟨ih1, ih2, ih3⟩ := ih
    have hbuild : buildOptions (.obj fields) = .ok
        { key := d.key, amount := d.amount, currency := d.currency, name := "Rural Sports Hub",
          description := "Payment for Booking #" ++ d.bookingId, order_id := d.orderId,
          prefill := { name := "User", email := "user@example.com", contact := "9999999999" },
          theme := { color := "#3399cc" } } := by
      simp [buildOptions, getProp_obj, hk, ha, hc, ho, hb, JSVal.toStr, Bind.bind, Except.bind,
        Pure.pure, Except.pure]
    have hrun := clickListener_present p _ _ hf (by simp) hbuild hs
    refine ⟨?_, ?_, ?_⟩
    · rw [activations, hrun, constructed_append, ih1]
      rfl
    · rw [activations, hrun, constructed_append, List.length_append, ih2]
      exact Nat.add_comm 1 pages.length
    · rw [activations, hrun, opened_append, ih3]
      exact Nat.add_comm 1 pages.length

/-- Witness for C10: two activations, the first with the descriptor of the
worked example and the second with a different one, construct and open two
dialogs, each configured from its own descriptor. -/
theorem repeated_activation_witness :
    constructed (activations [firstDescriptor.page, otherDescriptor.page]) =
      [{ key := .str "k1"
         amount := .num 500 (by decide)
         currency := .str "INR"
         name := "Rural Sports Hub"
         description := "Payment for Booking #" ++ "B42"
         order_id := .str "order_1"
         prefill := { name := "User", email := "user@example.com", contact := "9999999999" }
         theme := { color := "#3399cc" } },
       { key := .str "k2"
         amount := .num 1250 (by decide)
         currency := .str "USD"
         name := "Rural Sports Hub"
         description := "Payment for Booking #" ++ "B7"
         order_id := .str "order_2"
         prefill := { name := "User", email := "user@example.com", contact := "9999999999" }
         theme := { color := "#3399cc" } }] ∧
    (constructed (activations [firstDescriptor.page, otherDescriptor.page])).length = 2 ∧
    opened (activations [firstDescriptor.page, otherDescriptor.page]) = 2 :=
  repeated_activation [firstDescriptor, otherDescriptor]
    [firstDescriptor.page, otherDescriptor.page]
    (List.Forall₂.cons ⟨rfl, _, rfl, rfl, rfl, rfl, rfl, rfl⟩
      (List.Forall₂.cons ⟨rfl, _, rfl, rfl, rfl, rfl, rfl, rfl⟩ List.Forall₂.nil))

/-! ## Uncaught exceptions -/

theorem click_throws_iff (page : Page) :
    (clickListener page).throws = true ↔
      ∃ d, page.razorpayData = some d ∧ d ≠ .undefined ∧
        (d = .null ∨
         (∃ b, d.getProp "bookingId" = .ok b ∧ b.hasOwnToString = true) ∨
         page.razorpaySdk = false) := by
  cases hrd : page.razorpayData with
  | none => simp [clickListener_absent page (Or.inl hrd), Run.throws]
  | some d =>
    by_cases hu : d = .undefined
    · subst hu
      simp [clickListener_absent page (Or.inr hrd), Run.throws]
    · cases hn : d.isNullish with
      | true =>
        have hnull : d = .null := by
          cases d <;> first | rfl | exact absurd rfl hu | simp [JSVal.isNullish] at hn
        simp [clickListener_unbuilt page d _ hrd hu (buildOptions_nullish d hn), Run.throws,
          hu, hnull]
      | false =>
        have hnn : d ≠ .null := by
          intro h; subst h; simp [JSVal.isNullish] at hn
        obtain ⟨b, hb⟩ := getProp_ok d "bookingId" hn
        cases hc : b.hasOwnToString with
        | true =>
          simp [clickListener_unbuilt page d _ hrd hu (buildOptions_unprintable d b hb hc),
            Run.throws, hu, hb, hc]
        | false =>
          obtain ⟨o, ho⟩ := buildOptions_printable d b hb hc
          cases hs : page.razorpaySdk with
          | false =>
            simp [clickListener_unloaded page d o hrd hu ho hs, Run.throws, hu]
          | true =>
            simp [clickListener_present page d o hrd hu ho hs, Run.throws, hu, hnn, hb, hc]

theorem handler_throws_iff (page : Page) (response : JSVal) :
    (handler page response).throws = true ↔
      response.isNullish = true ∨
      page.razorpayData = none ∨
      (∃ d, page.razorpayData = some d ∧ d.isNullish = true) ∨
      (∃ v, (response.getProp "razorpay_payment_id" = .ok v ∨
             response.getProp "razorpay_order_id" = .ok v ∨
             response.getProp "razorpay_signature" = .ok v ∨
             ∃ d, page.razorpayData = some d ∧ d.getProp "bookingId" = .ok v) ∧
            v.hasOwnToString = true) := by
  cases hr : response.isNullish with
  | true =>
    simp [handler, getProp_nullish response _ hr, Run.throws, Bind.bind, Run.bind, emit, liftE]
  | false =>
    obtain ⟨v1, h1⟩ := getProp_ok response "razorpay_payment_id" hr
    obtain ⟨v2, h2⟩ := getProp_ok response "razorpay_order_id" hr
    obtain ⟨v3, h3⟩ := getProp_ok response "razorpay_signature" hr
    cases hrd : page.razorpayData with
    | none =>
      simp [handler, h1, h2, h3, hrd, readGlobal, Run.throws, Bind.bind, Run.bind, emit, liftE]
    | some d =>
      cases hdn : d.isNullish with
      | true =>
        simp [handler, h1, h2, h3, hrd, readGlobal, getProp_nullish d _ hdn, hdn, Run.throws,
          Bind.bind, Run.bind, emit, liftE]
      | false =>
        obtain ⟨b, hb⟩ := getProp_ok d "bookingId" hdn
        cases c1 : v1.hasOwnToString with
        | true =>
          refine ⟨fun _ => Or.inr (Or.inr (Or.inr ⟨v1, Or.inl h1, c1⟩)), fun _ => ?_⟩
          simp [handler, h1, h2, h3, hrd, hb, readGlobal, toStr_own v1 c1, Run.throws,
            Bind.bind, Run.bind, emit, liftE]
        | false =>
          obtain ⟨s1, t1⟩ := toStr_ok v1 c1
          cases c2 : v2.hasOwnToString with
          | true =>
            refine ⟨fun _ => Or.inr (Or.inr (Or.inr ⟨v2, Or.inr (Or.inl h2), c2⟩)),
              fun _ => ?_⟩
            simp [handler, h1, h2, h3, hrd, hb, readGlobal, t1, toStr_own v2 c2, Run.throws,
              Bind.bind, Run.bind, emit, liftE]
          | false =>
            obtain ⟨s2, t2⟩ := toStr_ok v2 c2
            cases c3 : v3.hasOwnToString with
            | true =>
              refine ⟨fun _ => Or.inr (Or.inr (Or.inr ⟨v3, Or.inr (Or.inr (Or.inl h3)), c3⟩)),
                fun _ => ?_⟩
              simp [handler, h1, h2, h3, hrd, hb, readGlobal, t1, t2, toStr_own v3 c3,
                Run.throws, Bind.bind, Run.bind, emit, liftE]
            | false =>
              obtain ⟨s3, t3⟩ := toStr_ok v3 c3
              cases c4 : b.hasOwnToString with
              | true =>
                refine ⟨fun _ => Or.inr (Or.inr (Or.inr
                  ⟨b, Or.inr (Or.inr (Or.inr ⟨d, rfl, hb⟩)), c4⟩)), fun _ => ?_⟩
                simp [handler, h1, h2, h3, hrd, hb, readGlobal, t1, t2, t3, toStr_own b c4,
                  Run.throws, Bind.bind, Run.bind, emit, liftE]
              | false =>
                obtain ⟨s4, t4⟩ := toStr_ok b c4
                have hok : (handler page response).throws = false := by
                  simp [handler, h1, h2, h3, hrd, hb, readGlobal, t1, t2, t3, t4, Run.throws,
                    Bind.bind, Run.bind, emit, liftE]
                rw [hok]
                refine ⟨fun h => absurd h (by simp), ?_⟩
                rintro (h | h | ⟨e, he, hn⟩ | ⟨v, (h | h | h | ⟨e, he, h⟩), hv⟩)
                · simp at h
                · simp at h
                · cases he
                  rw [hdn] at hn
                  simp at hn
                · rw [h1] at h
                  cases h
                  rw [c1] at hv
                  simp at hv
                · rw [h2] at h
                  cases h
                  rw [c2] at hv
                  simp at hv
                · rw [h3] at h
                  cases h
                  rw [c3] at hv
                  simp at hv
                · cases he
                  rw [hb] at h
                  cases h
                  rw [c4] at hv
                  simp at hv

theorem paymentFailed_throws_iff (event : JSVal) :
    (paymentFailed event).throws = true ↔
      event.isNullish = true ∨
      ∃ e, event.getProp "error" = .ok e ∧
        (e.isNullish = true ∨
         ∃ s, e.getProp "description" = .ok s ∧ s.hasOwnToString = true) := by
  cases hr : event.isNullish with
  | true =>
    simp [paymentFailed, getProp_nullish event _ hr, Run.throws, Bind.bind, Run.bind, emit,
      liftE]
  | false =>
    obtain ⟨e, he⟩ := getProp_ok event "error" hr
    cases hn : e.isNullish with
    | true =>
      simp [paymentFailed, he, getProp_nullish e _ hn, hn, Run.throws, Bind.bind, Run.bind,
        emit, liftE]
    | false =>
      obtain ⟨s, hs⟩ := getProp_ok e "description" hn
      cases hc : s.hasOwnToString with
      | true =>
        simp [paymentFailed, he, hs, hn, hc, toStr_own s hc, Run.throws, Bind.bind, Run.bind,
          emit, liftE]
      | false =>
        obtain ⟨t, ht⟩ := toStr_ok s hc
        simp [paymentFailed, he, hs, hn, hc, ht, Run.throws, Bind.bind, Run.bind, emit, liftE]

/-- C7, as stated, fails at four concrete inputs.  With the descriptor global
declared but null, the typeof guard lets the activation through and the first
property read raises a TypeError that escapes the click listener.  With a
descriptor whose booking identifier is the object with the single own
property toString = 1, the template literal of line 20 raises a TypeError that
escapes the click listener before the dialog is constructed.  With the
descriptor global not declared, the success callback raises a ReferenceError
before any request is sent.  With a failure event whose description is that
same object, the failure listener raises a TypeError after logging and before
any alert. -/
theorem uncaught_exception_examples :
    clickListener ⟨true, some .null, true⟩ =
      ⟨[.preventDefault, .consoleLog "🧩 Razorpay options loaded:" [.val .null]],
        .error (.typeError "key")⟩ ∧
    clickListener ⟨true, some (.obj [("key", .str "k1"),
        ("bookingId", .obj [("toString", .num 1 (by decide))])]), true⟩ =
      ⟨[.preventDefault, .consoleLog "🧩 Razorpay options loaded:"
          [.val (.obj [("key", .str "k1"),
            ("bookingId", .obj [("toString", .num 1 (by decide))])])]],
        .error (.typeError "Cannot convert object to primitive value")⟩ ∧
    handler ⟨true, none, true⟩ (.obj exampleResult) =
      ⟨[.consoleLog "✅ Payment success:" [.val (.obj exampleResult)]],
        .error (.referenceError "razorpayData")⟩ ∧
    paymentFailed (.obj [("error",
        .obj [("description", .obj [("toString", .num 1 (by decide))])])]) =
      ⟨[.consoleError "🔴 Payment failed:"
          [.val (.obj [("description", .obj [("toString", .num 1 (by decide))])])]],
        .error (.typeError "Cannot convert object to primitive value")⟩ :=
  ⟨rfl, rfl, rfl, rfl⟩

/-- C7, amended: setup and the promise chain of the verification request never
end with an exception escaping them, for every page state and every outcome of
the request.  An exception escapes the click listener exactly when the
descriptor global is declared with a value other than undefined and that value
is null, or its bookingId is an object with an own toString property, or the
Razorpay constructor is not defined.  An exception escapes the success callback
exactly when the payment result is undefined or null, or the descriptor global
is not declared, undefined or null, or one of the four values sent (the three
fields of the payment result and the descriptor's bookingId) is an object with
an own toString property.  An exception escapes the failure listener exactly
when the event is undefined or null, or its error is undefined or null, or the
error's description is an object with an own toString property. -/
theorem uncaught_exceptions (page : Page) (response event : JSVal) (outcome : FetchOutcome) :
    (domContentLoaded page).throws = false ∧
    (continuation outcome).throws = false ∧
    ((clickListener page).throws = true ↔
      ∃ d, page.razorpayData = some d ∧ d ≠ .undefined ∧
        (d = .null ∨
         (∃ b, d.getProp "bookingId" = .ok b ∧ b.hasOwnToString = true) ∨
         page.razorpaySdk = false)) ∧
    ((handler page response).throws = true ↔
      response.isNullish = true ∨
      page.razorpayData = none ∨
      (∃ d, page.razorpayData = some d ∧ d.isNullish = true) ∨
      (∃ v, (response.getProp "razorpay_payment_id" = .ok v ∨
             response.getProp "razorpay_order_id" = .ok v ∨
             response.getProp "razorpay_signature" = .ok v ∨
             ∃ d, page.razorpayData = some d ∧ d.getProp "bookingId" = .ok v) ∧
            v.hasOwnToString = true)) ∧
    ((paymentFailed event).throws = true ↔
      event.isNullish = true ∨
      ∃ e, event.getProp "error" = .ok e ∧
        (e.isNullish = true ∨
         ∃ s, e.getProp "description" = .ok s ∧ s.hasOwnToString = true)) := by
  refine ⟨?_, ?_, click_throws_iff page, handler_throws_iff page response,
    paymentFailed_throws_iff event⟩
  · unfold domContentLoaded
    split <;> rfl
  · simp [Run.throws, continuation_no_throw]

end SpotifyHub
